import Mathlib

/-
Verification of the PSoC_2_Pi firmware bridge core:
  * `Python.c` — command frame decode (`Python_getData`), dispatch
    (`Python_parser`, embedded here as `Python_parse`), and response
    encode (`Python_sendData`);
  * `GPIO_12_7.c` — the generated Pins component (masked shared-register
    digital port driver): `GPIO_12_7_Write`, `GPIO_12_7_Read`,
    `GPIO_12_7_ReadDataReg`, `GPIO_12_7_ClearInterrupt`.
Machine integers are embedded as `Nat` with explicit `% 256` where the C
code truncates to `uint8`.
-/

/-- Embeds the `vessel_type` command record passed between
`Python_getData` and the dispatcher, with the fields `Python.c` uses:
`addr` and `cmd` are `uint8`, `dat` is the `uint16` payload, `pin` and
`port` are the indices the GPIO handler derives from `dat`. -/
structure vessel_type where
  addr : Nat
  cmd  : Nat
  dat  : Nat
  pin  : Nat
  port : Nat
deriving Repr, DecidableEq

/-- Embeds C logical OR `a || b` on integers: the result is `1` when
either operand is nonzero and `0` otherwise. -/
def cOr (a b : Nat) : Nat := if a ≠ 0 then 1 else if b ≠ 0 then 1 else 0

/-- Embeds `Python_getData` (`Python.c` lines 178-216): the four bytes
`addr`, `cmd`, `dat_lo`, `dat_hi` are received from the transport in that
order and stored into the vessel.  The payload assembly is the source's
`vessel->dat = (dat_hi<<8)||dat_lo;` — C logical OR, not bitwise OR. -/
def Python_getData (v : vessel_type) (addr cmd dat_lo dat_hi : Nat) : vessel_type :=
  { v with addr := addr, cmd := cmd, dat := cOr (dat_hi <<< 8) dat_lo }

/-- Modelled from the spec: the dispatch address constants are defined in
`Python.h`, which is not among the sources; the spec pins only the GPIO
address (`0x20` in its frame-decode example).  The constants are kept
abstract as fields of this structure.  A C `switch` requires all case
labels to be distinct, which theorems assume where they need it. -/
structure Build where
  DELSIG_ADC_CONTROL : Nat
  SAR_ADC0_CONTROL : Nat
  SAR_ADC1_CONTROL : Nat
  VDAC0_CONTROL : Nat
  VDAC1_CONTROL : Nat
  IDAC0_CONTROL : Nat
  IDAC1_CONTROL : Nat
  WAVEDAC_CONTROL : Nat
  PWM_REGISTER0 : Nat
  PWM_REGISTER1 : Nat
  PWM_REGISTER2 : Nat
  PWM_REGISTER3 : Nat
  PWM_REGISTER4 : Nat
  PWM_REGISTER5 : Nat
  PWM_REGISTER6 : Nat
  PWM_REGISTER7 : Nat
  PWM_REGISTER8 : Nat
  PWM_REGISTER9 : Nat
  PWM_REGISTER10 : Nat
  PWM_REGISTER11 : Nat
  ANALOG_IN_REGISTER : Nat
  CAPSENSE_REGISTER : Nat
  GPIO_REGISTER : Nat
  CHECK_BUILD : Nat
  RESET_ADDRESS : Nat
deriving Repr, DecidableEq

/-- Lists the 22 peripheral-control case labels that precede the
`GPIO_REGISTER` case in the dispatcher's switch; in the source each of
these cases is an empty `break` (a no-op handler). -/
def Build.controlAddrs (B : Build) : List Nat :=
  [B.DELSIG_ADC_CONTROL, B.SAR_ADC0_CONTROL, B.SAR_ADC1_CONTROL,
   B.VDAC0_CONTROL, B.VDAC1_CONTROL, B.IDAC0_CONTROL, B.IDAC1_CONTROL,
   B.WAVEDAC_CONTROL, B.PWM_REGISTER0, B.PWM_REGISTER1, B.PWM_REGISTER2,
   B.PWM_REGISTER3, B.PWM_REGISTER4, B.PWM_REGISTER5, B.PWM_REGISTER6,
   B.PWM_REGISTER7, B.PWM_REGISTER8, B.PWM_REGISTER9, B.PWM_REGISTER10,
   B.PWM_REGISTER11, B.ANALOG_IN_REGISTER, B.CAPSENSE_REGISTER]

/-- Embeds `Python_parser` (`Python.c` lines 22-152; named `Python_parse`
here).  The C switch on `vessel->addr` is rendered as an if-chain in
source order; every peripheral-control case is an empty `break`, the
`GPIO_REGISTER` case derives `pin`/`port` from the payload and overwrites
`dat` for commands `0x01` and `0x03`, and `CHECK_BUILD`/`RESET_ADDRESS`
are empty.  All conditionally compiled cases are modelled as present;
removing one only moves its address into the silent fall-through. -/
def Python_parse (B : Build) (v : vessel_type) : vessel_type :=
  let cmd := v.cmd
  let addr := v.addr
  if addr = B.DELSIG_ADC_CONTROL then v
  else if addr = B.SAR_ADC0_CONTROL then v
  else if addr = B.SAR_ADC1_CONTROL then v
  else if addr = B.VDAC0_CONTROL then v
  else if addr = B.VDAC1_CONTROL then v
  else if addr = B.IDAC0_CONTROL then v
  else if addr = B.IDAC1_CONTROL then v
  else if addr = B.WAVEDAC_CONTROL then v
  else if addr = B.PWM_REGISTER0 then v
  else if addr = B.PWM_REGISTER1 then v
  else if addr = B.PWM_REGISTER2 then v
  else if addr = B.PWM_REGISTER3 then v
  else if addr = B.PWM_REGISTER4 then v
  else if addr = B.PWM_REGISTER5 then v
  else if addr = B.PWM_REGISTER6 then v
  else if addr = B.PWM_REGISTER7 then v
  else if addr = B.PWM_REGISTER8 then v
  else if addr = B.PWM_REGISTER9 then v
  else if addr = B.PWM_REGISTER10 then v
  else if addr = B.PWM_REGISTER11 then v
  else if addr = B.ANALOG_IN_REGISTER then v
  else if addr = B.CAPSENSE_REGISTER then v
  else if addr = B.GPIO_REGISTER then
    let temp_data := v.dat
    let v' := { v with pin := (temp_data >>> 1) &&& 0x0007,
                       port := (temp_data >>> 4) &&& 0x000F }
    if cmd = 0x01 then { v' with dat := temp_data &&& 0x0001 }
    else if cmd = 0x03 then { v' with dat := (temp_data >>> 8) &&& 0x000F }
    else v'
  else if addr = B.CHECK_BUILD then v
  else if addr = B.RESET_ADDRESS then v
  else v

/-- Embeds `Python_sendData` (`Python.c` lines 226-259): the 32-bit
response is split into four bytes which are emitted lowest byte first
(SPI: `WriteTxDataZero(out_lo)` then the array
`[out_mid_lo, out_mid_hi, out_hi]`; I2C: `RD_buf[0..3]` in the same
order).  The result lists the bytes in send order. -/
def Python_sendData (dat : Nat) : List Nat :=
  let out_hi := (dat &&& 0xFF000000) >>> 24
  let out_mid_hi := (dat &&& 0x00FF0000) >>> 16
  let out_mid_lo := (dat &&& 0x0000FF00) >>> 8
  let out_lo := dat &&& 0x000000FF
  [out_lo, out_mid_lo, out_mid_hi, out_hi]

/-- Holds the compile-time constants of one generated Pins component
(`GPIO_12_7_MASK`, `GPIO_12_7_SHIFT`, `GPIO_12_7_WIDTH` in
`GPIO_12_7.h`; the generated headers fix `WIDTH = 1u`, the model keeps it
general). -/
structure PortConsts where
  MASK : Nat
  SHIFT : Nat
  WIDTH : Nat
deriving Repr, DecidableEq

/-- Holds the three hardware registers `GPIO_12_7.c` touches: data
register `DR`, pin-state register `PS`, interrupt status register
`INTSTAT`; each is an 8-bit hardware byte. -/
structure PortState where
  DR : Nat
  PS : Nat
  INTSTAT : Nat
deriving Repr, DecidableEq

/-- Embeds the `uint8` complement `(uint8)(~m)`, which for `m < 256`
equals `255 XOR m`. -/
def compl8 (m : Nat) : Nat := 255 ^^^ m

/-- Embeds `GPIO_12_7_Write` (`GPIO_12_7.c` lines 39-43):
`staticBits = DR & (uint8)(~MASK);`
`DR = staticBits | ((uint8)(value << SHIFT) & MASK);`
The `(uint8)` cast of the shifted value is the `% 256`. -/
def GPIO_12_7_Write (P : PortConsts) (s : PortState) (value : Nat) : PortState :=
  let staticBits := s.DR &&& compl8 P.MASK
  { s with DR := staticBits ||| (((value <<< P.SHIFT) % 256) &&& P.MASK) }

/-- Embeds `GPIO_12_7_Read` (`GPIO_12_7.c` lines 93-96):
`return (PS & MASK) >> SHIFT;` — the function only reads the pin-state
register, so the register state is returned unchanged. -/
def GPIO_12_7_Read (P : PortConsts) (s : PortState) : Nat × PortState :=
  ((s.PS &&& P.MASK) >>> P.SHIFT, s)

/-- Embeds `GPIO_12_7_ReadDataReg` (`GPIO_12_7.c` lines 113-116):
`return (DR & MASK) >> SHIFT;` on the data register, state unchanged. -/
def GPIO_12_7_ReadDataReg (P : PortConsts) (s : PortState) : Nat × PortState :=
  ((s.DR &&& P.MASK) >>> P.SHIFT, s)

/-- Embeds `GPIO_12_7_ClearInterrupt` (`GPIO_12_7.c` lines 136-139):
`return (INTSTAT & MASK) >> SHIFT;`.  Modelled from the spec: the
hardware clear-on-read side effect of the interrupt status register is
not visible in the C sources; per the spec the call clears the interrupt
status bits belonging to this port's mask. -/
def GPIO_12_7_ClearInterrupt (P : PortConsts) (s : PortState) : Nat × PortState :=
  ((s.INTSTAT &&& P.MASK) >>> P.SHIFT,
   { s with INTSTAT := s.INTSTAT &&& compl8 P.MASK })

/-- Gives one concrete assignment of the `Python.h` address constants:
pairwise distinct, with `GPIO_REGISTER = 0x20` as the spec's example
fixes it.  Used by the witness theorems. -/
def B0 : Build :=
  ⟨1, 2, 3, 4, 5, 6, 7, 8, 9, 10, 11, 12, 13, 14, 15, 16, 17, 18, 19,
   0x1A, 0x1B, 0x1C, 0x20, 0xFE, 0xFF⟩

/-- C1: the decoder is claimed to store `(data_high << 8) | data_low`
into `dat`, so `[0x20, 0x01, 0x12, 0x00]` should decode to
`data = 0x0012`; the code's logical OR instead stores `1` there, while
`addr` and `cmd` decode as claimed.  This theorem evaluates the code at
the failing input. -/
theorem getData_example_stores_one :
    (Python_getData ⟨0, 0, 0, 0, 0⟩ 0x20 0x01 0x12 0x00).addr = 0x20 ∧
    (Python_getData ⟨0, 0, 0, 0, 0⟩ 0x20 0x01 0x12 0x00).cmd = 0x01 ∧
    (Python_getData ⟨0, 0, 0, 0, 0⟩ 0x20 0x01 0x12 0x00).dat = 1 ∧
    (1 : Nat) ≠ 0x0012 := by
  refine ⟨rfl, rfl, ?_, by decide⟩
  decide

/-- C9: for every 4 received bytes, the value stored into `dat` is `1`
exactly when `dat_hi` or `dat_lo` is nonzero and `0` otherwise, hence it
never exceeds `1`: the assembly `(dat_hi<<8)||dat_lo` is C logical OR. -/
theorem getData_dat_at_most_one (v : vessel_type) (addr cmd dat_lo dat_hi : Nat) :
    (Python_getData v addr cmd dat_lo dat_hi).dat =
      (if dat_hi ≠ 0 ∨ dat_lo ≠ 0 then 1 else 0) ∧
    (Python_getData v addr cmd dat_lo dat_hi).dat ≤ 1 := by
  have hsh : dat_hi <<< 8 = dat_hi * 256 := Nat.shiftLeft_eq dat_hi 8
  constructor
  · show cOr (dat_hi <<< 8) dat_lo = _
    by_cases hhi : dat_hi = 0 <;> by_cases hlo : dat_lo = 0 <;>
      simp [cOr, hsh, hhi, hlo]
  · show cOr (dat_hi <<< 8) dat_lo ≤ 1
    unfold cOr
    split <;> [exact le_refl 1; skip]
    split <;> omega

/-- C7: `read()` applies `unpack` to the pin-state register `PS` and
`read_data_register()` applies `unpack` to the data register `DR` (so
they can differ when the electrical state differs from the commanded
output), and both are side-effect-free: each leaves the register state
unchanged, and two successive calls return the same value. -/
theorem read_operations_pure (P : PortConsts) (s : PortState) :
    (GPIO_12_7_Read P s).1 = (s.PS &&& P.MASK) >>> P.SHIFT ∧
    (GPIO_12_7_ReadDataReg P s).1 = (s.DR &&& P.MASK) >>> P.SHIFT ∧
    (GPIO_12_7_Read P s).2 = s ∧
    (GPIO_12_7_ReadDataReg P s).2 = s ∧
    (GPIO_12_7_Read P (GPIO_12_7_Read P s).2).1 = (GPIO_12_7_Read P s).1 ∧
    (GPIO_12_7_ReadDataReg P (GPIO_12_7_ReadDataReg P s).2).1 =
      (GPIO_12_7_ReadDataReg P s).1 :=
  ⟨rfl, rfl, rfl, rfl, rfl, rfl⟩

/-- Extracts one byte: masking with a byte mask shifted to offset `k` and
shifting down by `k` equals shifting down by `k` and masking with `0xFF`. -/
lemma and_byteMask_shiftRight (x k : Nat) :
    (x &&& ((2 ^ 8 - 1) <<< k)) >>> k = (x >>> k) &&& (2 ^ 8 - 1) := by
  apply Nat.eq_of_testBit_eq
  intro i
  simp [Nat.testBit_shiftRight, Nat.testBit_and, Nat.testBit_shiftLeft,
        Nat.testBit_two_pow_sub_one, Nat.le_add_right, Nat.add_sub_cancel_left]

/-- C6: encoding emits exactly 4 bytes in least-significant-byte-first
send order: `value & 0xFF`, `(value >> 8) & 0xFF`, `(value >> 16) & 0xFF`,
`(value >> 24) & 0xFF`. -/
theorem sendData_lsb_first (dat : Nat) (_h : dat < 2 ^ 32) :
    Python_sendData dat =
      [dat &&& 0xFF, (dat >>> 8) &&& 0xFF,
       (dat >>> 16) &&& 0xFF, (dat >>> 24) &&& 0xFF] := by
  have b1 : (dat &&& 0x0000FF00) >>> 8 = (dat >>> 8) &&& 0xFF := by
    rw [show (0x0000FF00 : Nat) = (2 ^ 8 - 1) <<< 8 by decide,
        show (0xFF : Nat) = 2 ^ 8 - 1 by decide]
    exact and_byteMask_shiftRight dat 8
  have b2 : (dat &&& 0x00FF0000) >>> 16 = (dat >>> 16) &&& 0xFF := by
    rw [show (0x00FF0000 : Nat) = (2 ^ 8 - 1) <<< 16 by decide,
        show (0xFF : Nat) = 2 ^ 8 - 1 by decide]
    exact and_byteMask_shiftRight dat 16
  have b3 : (dat &&& 0xFF000000) >>> 24 = (dat >>> 24) &&& 0xFF := by
    rw [show (0xFF000000 : Nat) = (2 ^ 8 - 1) <<< 24 by decide,
        show (0xFF : Nat) = 2 ^ 8 - 1 by decide]
    exact and_byteMask_shiftRight dat 24
  simp only [Python_sendData]
  rw [b1, b2, b3]

/-- Witness for C6: the 32-bit value `0x12345678` encodes to the bytes
`[0x78, 0x56, 0x34, 0x12]` in send order. -/
theorem sendData_lsb_first_witness :
    (0x12345678 : Nat) < 2 ^ 32 ∧
    Python_sendData 0x12345678 = [0x78, 0x56, 0x34, 0x12] := by
  refine ⟨by norm_num, ?_⟩
  rw [sendData_lsb_first 0x12345678 (by norm_num)]
  decide

/-- Shows the dispatcher is the identity whenever the frame's address is
not the GPIO address: every other case of the switch is an empty
`break`. -/
lemma parse_noop_of_ne_gpio (B : Build) (v : vessel_type)
    (h : v.addr ≠ B.GPIO_REGISTER) : Python_parse B v = v := by
  simp only [Python_parse]
  rw [if_neg h]
  simp only [ite_self]

/-- Computes the GPIO branch of the dispatcher: when the address is the
GPIO address and that address is not shadowed by an earlier case label,
`pin` and `port` are derived from the payload and `dat` is overwritten
according to the command. -/
lemma parse_at_gpio (B : Build) (v : vessel_type)
    (haddr : v.addr = B.GPIO_REGISTER)
    (hfree : B.GPIO_REGISTER ∉ B.controlAddrs) :
    Python_parse B v =
      { v with pin := (v.dat >>> 1) &&& 0x0007,
               port := (v.dat >>> 4) &&& 0x000F,
               dat := if v.cmd = 0x01 then v.dat &&& 0x0001
                      else if v.cmd = 0x03 then (v.dat >>> 8) &&& 0x000F
                      else v.dat } := by
  have g : ∀ a, a ∈ B.controlAddrs → v.addr ≠ a := by
    intro a ha heq
    rw [haddr] at heq
    exact hfree (heq ▸ ha)
  simp only [Python_parse]
  rw [if_neg (g _ (by simp [Build.controlAddrs])),
      if_neg (g _ (by simp [Build.controlAddrs])),
      if_neg (g _ (by simp [Build.controlAddrs])),
      if_neg (g _ (by simp [Build.controlAddrs])),
      if_neg (g _ (by simp [Build.controlAddrs])),
      if_neg (g _ (by simp [Build.controlAddrs])),
      if_neg (g _ (by simp [Build.controlAddrs])),
      if_neg (g _ (by simp [Build.controlAddrs])),
      if_neg (g _ (by simp [Build.controlAddrs])),
      if_neg (g _ (by simp [Build.controlAddrs])),
      if_neg (g _ (by simp [Build.controlAddrs])),
      if_neg (g _ (by simp [Build.controlAddrs])),
      if_neg (g _ (by simp [Build.controlAddrs])),
      if_neg (g _ (by simp [Build.controlAddrs])),
      if_neg (g _ (by simp [Build.controlAddrs])),
      if_neg (g _ (by simp [Build.controlAddrs])),
      if_neg (g _ (by simp [Build.controlAddrs])),
      if_neg (g _ (by simp [Build.controlAddrs])),
      if_neg (g _ (by simp [Build.controlAddrs])),
      if_neg (g _ (by simp [Build.controlAddrs])),
      if_neg (g _ (by simp [Build.controlAddrs])),
      if_neg (g _ (by simp [Build.controlAddrs])),
      if_pos haddr]
  split_ifs <;> rfl

/-- C4: for a frame addressed to `GPIO_REGISTER`, the handler derives
`pin = (data >> 1) & 0x7` and `port = (data >> 4) & 0xF`; command `0x01`
replaces `data` with `data & 0x0001`, command `0x03` replaces it with
`(data >> 8) & 0xF`, and any other command leaves the frame's wire
fields (`addr`, `cmd`, `dat`) unmodified. -/
theorem parse_gpio_behavior (B : Build) (v : vessel_type)
    (haddr : v.addr = B.GPIO_REGISTER)
    (hfree : B.GPIO_REGISTER ∉ B.controlAddrs) :
    Python_parse B v =
      { v with pin := (v.dat >>> 1) &&& 0x0007,
               port := (v.dat >>> 4) &&& 0x000F,
               dat := if v.cmd = 0x01 then v.dat &&& 0x0001
                      else if v.cmd = 0x03 then (v.dat >>> 8) &&& 0x000F
                      else v.dat } :=
  parse_at_gpio B v haddr hfree

/-- Witness for C4: with `GPIO_REGISTER = 0x20`, the decoded example
frame `(0x20, 0x01, 0x0012)` yields `pin = 1`, `port = 1` and response
data `0x0012 & 0x0001 = 0`. -/
theorem parse_gpio_behavior_witness :
    Python_parse B0 ⟨0x20, 0x01, 0x12, 0, 0⟩ = ⟨0x20, 0x01, 0, 1, 1⟩ := by
  rw [parse_gpio_behavior B0 ⟨0x20, 0x01, 0x12, 0, 0⟩ rfl (by decide)]
  decide

/-- C5: a frame whose address matches no compiled-in peripheral case and
neither reserved address is dispatched as a silent no-op (the vessel is
unchanged and no error is possible); likewise a frame with the known
GPIO address but an unsupported command leaves the payload `dat` at its
prior value. -/
theorem parse_unknown_silent_noop (B : Build) (v : vessel_type) :
    (v.addr ∉ B.controlAddrs → v.addr ≠ B.GPIO_REGISTER →
     v.addr ≠ B.CHECK_BUILD → v.addr ≠ B.RESET_ADDRESS →
     Python_parse B v = v) ∧
    (v.addr = B.GPIO_REGISTER → B.GPIO_REGISTER ∉ B.controlAddrs →
     v.cmd ≠ 0x01 → v.cmd ≠ 0x03 → (Python_parse B v).dat = v.dat) := by
  constructor
  · intro _ hg _ _
    exact parse_noop_of_ne_gpio B v hg
  · intro haddr hfree hc1 hc3
    rw [parse_at_gpio B v haddr hfree]
    simp [hc1, hc3]

/-- Witness for C5: with the concrete build `B0`, the unused address
`0x77` leaves the vessel untouched, and GPIO command `0x02` leaves the
payload at its prior value. -/
theorem parse_unknown_silent_noop_witness :
    Python_parse B0 ⟨0x77, 0x01, 5, 0, 0⟩ = ⟨0x77, 0x01, 5, 0, 0⟩ ∧
    (Python_parse B0 ⟨0x20, 0x02, 0x12, 0, 0⟩).dat = 0x12 :=
  ⟨(parse_unknown_silent_noop B0 ⟨0x77, 0x01, 5, 0, 0⟩).1
      (by decide) (by decide) (by decide) (by decide),
   (parse_unknown_silent_noop B0 ⟨0x20, 0x02, 0x12, 0, 0⟩).2
      rfl (by decide) (by decide) (by decide)⟩

/-- C10: the dispatcher never changes the frame's `addr` and `cmd`
fields, and for every address other than `GPIO_REGISTER` it leaves the
entire vessel — `dat`, `pin` and `port` included — unchanged. -/
theorem parse_preserves_frame (B : Build) (v : vessel_type) :
    (Python_parse B v).addr = v.addr ∧
    (Python_parse B v).cmd = v.cmd ∧
    (v.addr ≠ B.GPIO_REGISTER → Python_parse B v = v) := by
  refine ⟨?_, ?_, fun h => parse_noop_of_ne_gpio B v h⟩
  · simp only [Python_parse, apply_ite vessel_type.addr]
    simp only [ite_self]
  · simp only [Python_parse, apply_ite vessel_type.cmd]
    simp only [ite_self]

/-- Witness for C10: a frame with the unused address `0x99` passes
through the dispatcher completely unchanged. -/
theorem parse_preserves_frame_witness :
    Python_parse B0 ⟨0x99, 0x03, 7, 2, 3⟩ = ⟨0x99, 0x03, 7, 2, 3⟩ :=
  (parse_preserves_frame B0 ⟨0x99, 0x03, 7, 2, 3⟩).2.2 (by decide)

/-- Shows that a value below 256 has no set bits at positions 8 and
above. -/
lemma testBit_eq_false_of_lt_256 {x : Nat} (h : x < 256) {j : Nat}
    (h8 : 8 ≤ j) : x.testBit j = false :=
  Nat.testBit_lt_two_pow (lt_of_lt_of_le h (by
    calc (256 : Nat) = 2 ^ 8 := by norm_num
    _ ≤ 2 ^ j := Nat.pow_le_pow_right (by norm_num) h8))

/-- Shows that masking with the low `W`-bit mask is the identity on
values below `2 ^ W`. -/
lemma and_two_pow_sub_one_of_lt {v W : Nat} (h : v < 2 ^ W) :
    v &&& (2 ^ W - 1) = v := by
  apply Nat.eq_of_testBit_eq
  intro i
  simp only [Nat.testBit_and, Nat.testBit_two_pow_sub_one]
  by_cases hi : i < W
  · simp [hi]
  · have hv : v.testBit i = false :=
      Nat.testBit_lt_two_pow
        (lt_of_lt_of_le h (Nat.pow_le_pow_right (by norm_num) (by omega)))
    simp [hi, hv]

/-- C2: for any mask that is a contiguous run of `WIDTH` ones at offset
`SHIFT` fitting in the 8-bit register, and for every prior register
value and every `logical_value`, reading the data register back after a
write returns `logical_value & ((1 << WIDTH) - 1)`; in particular the
round trip is the identity on values below `2 ^ WIDTH`. -/
theorem write_readDataReg_roundtrip (P : PortConsts) (s : PortState) (v : Nat)
    (hmask : P.MASK = (2 ^ P.WIDTH - 1) <<< P.SHIFT)
    (hfit : P.SHIFT + P.WIDTH ≤ 8) :
    (GPIO_12_7_ReadDataReg P (GPIO_12_7_Write P s v)).1 = v &&& (2 ^ P.WIDTH - 1) ∧
    (v < 2 ^ P.WIDTH →
      (GPIO_12_7_ReadDataReg P (GPIO_12_7_Write P s v)).1 = v) := by
  have main : (GPIO_12_7_ReadDataReg P (GPIO_12_7_Write P s v)).1
      = v &&& (2 ^ P.WIDTH - 1) := by
    apply Nat.eq_of_testBit_eq
    intro j
    simp only [GPIO_12_7_ReadDataReg, GPIO_12_7_Write, compl8, hmask]
    rw [show (256 : Nat) = 2 ^ 8 by norm_num,
        show (255 : Nat) = 2 ^ 8 - 1 by norm_num]
    simp only [Nat.testBit_shiftRight, Nat.testBit_and, Nat.testBit_or,
               Nat.testBit_xor, Nat.testBit_shiftLeft, Nat.testBit_mod_two_pow,
               Nat.testBit_two_pow_sub_one, Nat.add_sub_cancel_left]
    by_cases hjw : j < P.WIDTH
    · have h8 : P.SHIFT + j < 8 := by omega
      simp [h8, hjw, Nat.le_add_right]
    · simp [hjw]
  exact ⟨main, fun hv => by rw [main, and_two_pow_sub_one_of_lt hv]⟩

/-- Witness for C2: with `MASK = 0b110`, `SHIFT = 1`, `WIDTH = 2`, an
arbitrary prior register value `0xA5` and the over-wide value `0xFF`,
the readback returns `0xFF & 0b11 = 3`. -/
theorem write_readDataReg_roundtrip_witness :
    (GPIO_12_7_ReadDataReg ⟨6, 1, 2⟩
      (GPIO_12_7_Write ⟨6, 1, 2⟩ ⟨0xA5, 0, 0⟩ 0xFF)).1 = 3 := by
  have h := write_readDataReg_roundtrip ⟨6, 1, 2⟩ ⟨0xA5, 0, 0⟩ 0xFF
    (by decide) (by decide)
  rw [h.1]
  decide

/-- Computes one bit of the data register after a write: every bit
position outside the port's mask is unchanged. -/
lemma write_dr_testBit (P : PortConsts) (s : PortState) (v : Nat)
    (hDR : s.DR < 256) (j : Nat) (hj : P.MASK.testBit j = false) :
    (GPIO_12_7_Write P s v).DR.testBit j = s.DR.testBit j := by
  simp only [GPIO_12_7_Write, compl8]
  rw [show (256 : Nat) = 2 ^ 8 by norm_num,
      show (255 : Nat) = 2 ^ 8 - 1 by norm_num]
  simp only [Nat.testBit_or, Nat.testBit_and, Nat.testBit_xor,
             Nat.testBit_mod_two_pow, Nat.testBit_two_pow_sub_one, hj]
  by_cases h8 : j < 8
  · simp [h8]
  · have hz : s.DR.testBit j = false := testBit_eq_false_of_lt_256 hDR (by omega)
    simp [h8, hz]

/-- Shows that a write through port `A` does not change the unpacked
view of any port `B` whose mask is disjoint from `A`'s. -/
lemma readDataReg_after_write_disjoint (A B : PortConsts) (s : PortState)
    (v : Nat) (hDR : s.DR < 256) (hdisj : A.MASK &&& B.MASK = 0) :
    (GPIO_12_7_ReadDataReg B (GPIO_12_7_Write A s v)).1 =
      (GPIO_12_7_ReadDataReg B s).1 := by
  have hbit : ∀ i, A.MASK.testBit i = false ∨ B.MASK.testBit i = false := by
    intro i
    have h0 := congrArg (fun n => n.testBit i) hdisj
    simp only [Nat.testBit_and, Nat.zero_testBit] at h0
    cases hA : A.MASK.testBit i
    · exact Or.inl rfl
    · right
      simpa [hA] using h0
  have hmain : (GPIO_12_7_Write A s v).DR &&& B.MASK = s.DR &&& B.MASK := by
    apply Nat.eq_of_testBit_eq
    intro i
    simp only [Nat.testBit_and]
    rcases hbit i with hA | hB
    · rw [write_dr_testBit A s v hDR i hA]
    · simp [hB]
  simp only [GPIO_12_7_ReadDataReg]
  rw [hmain]

/-- C3: the read-modify-write performed by the port write leaves every
bit position outside the port's mask bit-for-bit identical to the prior
register value; consequently, for two ports `A` and `B` with disjoint
masks on the same physical register, writing any value through `A`
leaves `B`'s unpacked view unchanged, and vice versa. -/
theorem write_preserves_foreign_bits (A B : PortConsts) (s : PortState)
    (vA vB : Nat) (hDR : s.DR < 256) (hdisj : A.MASK &&& B.MASK = 0) :
    (∀ j, A.MASK.testBit j = false →
      (GPIO_12_7_Write A s vA).DR.testBit j = s.DR.testBit j) ∧
    (GPIO_12_7_ReadDataReg B (GPIO_12_7_Write A s vA)).1 =
      (GPIO_12_7_ReadDataReg B s).1 ∧
    (GPIO_12_7_ReadDataReg A (GPIO_12_7_Write B s vB)).1 =
      (GPIO_12_7_ReadDataReg A s).1 :=
  ⟨fun j hj => write_dr_testBit A s vA hDR j hj,
   readDataReg_after_write_disjoint A B s vA hDR hdisj,
   readDataReg_after_write_disjoint B A s vB hDR (by rwa [Nat.and_comm] at hdisj)⟩

/-- Witness for C3: with the spec's concrete ports (`A` owns bit 0, `B`
owns bit 1) on the all-zero register, writing `1` through `A` leaves
`B`'s unpacked view at its prior value. -/
theorem write_preserves_foreign_bits_witness :
    (GPIO_12_7_ReadDataReg ⟨2, 1, 1⟩
      (GPIO_12_7_Write ⟨1, 0, 1⟩ ⟨0, 0, 0⟩ 1)).1 =
      (GPIO_12_7_ReadDataReg ⟨2, 1, 1⟩ (⟨0, 0, 0⟩ : PortState)).1 :=
  (write_preserves_foreign_bits ⟨1, 0, 1⟩ ⟨2, 1, 1⟩ ⟨0, 0, 0⟩ 1 1
    (by decide) (by decide)).2.1

/-- C8: `clear_interrupt` returns the right-justified value
`(interrupt_status & mask) >> shift` captured before clearing, and after
the call this port's bits in the interrupt status register are cleared;
the data and pin-state registers are untouched. -/
theorem clearInterrupt_reads_and_clears (P : PortConsts) (s : PortState)
    (hM : P.MASK < 256) :
    (GPIO_12_7_ClearInterrupt P s).1 = (s.INTSTAT &&& P.MASK) >>> P.SHIFT ∧
    ((GPIO_12_7_ClearInterrupt P s).2.INTSTAT &&& P.MASK) = 0 ∧
    (GPIO_12_7_ClearInterrupt P s).2.DR = s.DR ∧
    (GPIO_12_7_ClearInterrupt P s).2.PS = s.PS := by
  refine ⟨rfl, ?_, rfl, rfl⟩
  apply Nat.eq_of_testBit_eq
  intro i
  simp only [GPIO_12_7_ClearInterrupt, compl8]
  rw [show (255 : Nat) = 2 ^ 8 - 1 by norm_num]
  simp only [Nat.testBit_and, Nat.testBit_xor, Nat.testBit_two_pow_sub_one,
             Nat.zero_testBit]
  cases hMi : P.MASK.testBit i
  · simp
  · have hi8 : i < 8 := by
      by_contra hge
      have hz : P.MASK.testBit i = false := testBit_eq_false_of_lt_256 hM (by omega)
      rw [hz] at hMi
      exact Bool.false_ne_true hMi
    simp [hi8]

/-- Witness for C8: a port owning bit 0 with all interrupt status bits
pending returns `1` and leaves its own status bit cleared. -/
theorem clearInterrupt_reads_and_clears_witness :
    (GPIO_12_7_ClearInterrupt ⟨1, 0, 1⟩ ⟨0, 0, 0xFF⟩).1 = 1 ∧
    ((GPIO_12_7_ClearInterrupt ⟨1, 0, 1⟩ ⟨0, 0, 0xFF⟩).2.INTSTAT &&& 1) = 0 := by
  have h := clearInterrupt_reads_and_clears ⟨1, 0, 1⟩ ⟨0, 0, 0xFF⟩ (by decide)
  exact ⟨by rw [h.1]; decide, h.2.1⟩
